import Mathlib

/-!
Shallow embedding of the adaptive layout-fitting engine of
`resume_generator.py` (class `ResumeGenerator`): the content-volume
estimator, the size-tier selector, the page-height estimator and the
bounded shrink loop, together with theorems settling the specification
claims about them.

Python floats are modelled as exact rationals; character counts are
natural numbers; the docx document is abstracted to the list of rendered
paragraphs (text plus style role) that the page estimator actually reads.
-/

/-- A work-experience or internship entry, as built by
`add_work_experience` and `add_internship` (both store the same dict
shape: title, company, location, dates, responsibilities, achievements). -/
structure ExperienceEntry where
  title : String
  company : String
  location : String
  startDate : String
  endDate : String
  responsibilities : List String
  achievements : List String
deriving Repr, DecidableEq

/-- A project entry, as built by `add_project`. -/
structure ProjectEntry where
  name : String
  description : String
  technologies : List String
  url : Option String
  startDate : Option String
  endDate : Option String
deriving Repr, DecidableEq

/-- A certification entry, as built by `add_certification`. -/
structure CertificationEntry where
  name : String
  issuer : String
  date : String
  expirationDate : Option String
  url : Option String
deriving Repr, DecidableEq

/-- An education entry, as built by `add_education`. -/
structure EducationEntry where
  degree : String
  institution : String
  location : String
  graduationDate : String
  gpa : Option String
  relevantCourses : Option (List String)
deriving Repr, DecidableEq

/-- The structured resume data held by a `ResumeGenerator` instance:
name, contact lines, optional summary, work experience, internships,
projects, certifications, the ordered skill-category mapping (Python
dicts preserve insertion order) and education. -/
structure ResumeDocument where
  name : String
  contactInfo : List String
  professionalSummary : Option String
  workExperience : List ExperienceEntry
  internships : List ExperienceEntry
  projects : List ProjectEntry
  certifications : List CertificationEntry
  technicalSkills : List (String × List String)
  education : List EducationEntry
deriving Repr, DecidableEq

/-- Font-size floor set in `ResumeGenerator.__init__`: `self.min_font_size = 12`. -/
def minFontSize : ℚ := 12

/-- Font-size ceiling set in `ResumeGenerator.__init__`: `self.max_font_size = 14`. -/
def maxFontSize : ℚ := 14

/-- Margin floor in inches set in `ResumeGenerator.__init__`: `self.min_margin = 0.5`. -/
def minMargin : ℚ := 1/2

/-- Margin ceiling in inches set in `ResumeGenerator.__init__`: `self.max_margin = 2.0`. -/
def maxMargin : ℚ := 2

/-- The mutable sizing state of a `ResumeGenerator`: the four fields
`name_font_size`, `heading_font_size`, `normal_font_size`, `margin_size`. -/
structure SizeProfile where
  nameFontSize : ℚ
  headingFontSize : ℚ
  normalFontSize : ℚ
  marginSize : ℚ
deriving Repr, DecidableEq

/-- The default sizes assigned in `ResumeGenerator.__init__`:
name at max font size plus 2, heading at max, normal at min,
margin 0.75 inches. -/
def initialProfile : SizeProfile :=
  { nameFontSize := maxFontSize + 2
    headingFontSize := maxFontSize
    normalFontSize := minFontSize
    marginSize := 3/4 }

/-- Accumulation performed for one job inside the work-experience loop of
`_estimate_content_volume`: add the base value 100, then 0.7 per character
of each responsibility, then 0.7 per character of each achievement. -/
def workEntryAccum (acc : ℚ) (job : ExperienceEntry) : ℚ :=
  let acc1 := acc + 100
  let acc2 := job.responsibilities.foldl (fun a r => a + (r.length : ℚ) * (7/10)) acc1
  job.achievements.foldl (fun a s => a + (s.length : ℚ) * (7/10)) acc2

/-- Translation of `_estimate_content_volume`: 0.5 per summary character
(the Python truthiness test skips an empty or absent summary), the work
loop, 1 per skill-category-label character plus 0.3 per skill character,
and 80 per education entry.  Note the source iterates only
`self.work_experience`; `self.internships`, `self.projects` and
`self.certifications` are never read. -/
def estimateContentVolume (d : ResumeDocument) : ℚ :=
  let v0 : ℚ := 0
  let v1 := match d.professionalSummary with
    | none => v0
    | some s => if s.isEmpty then v0 else v0 + (s.length : ℚ) * (1/2)
  let v2 := d.workExperience.foldl workEntryAccum v1
  let v3 := d.technicalSkills.foldl
    (fun acc cs =>
      acc + ((cs.1.length : ℚ) + ((cs.2.map (fun s => (s.length : ℚ))).sum) * (3/10)))
    v2
  d.education.foldl (fun acc _ => acc + 80) v3

/-- Translation of the threshold chain in `_adjust_font_and_margins`,
which maps the content volume to the initial size profile. -/
def adjustFontAndMargins (contentVolume : ℚ) : SizeProfile :=
  if contentVolume > 1800 then
    { nameFontSize := maxFontSize
      headingFontSize := minFontSize + 1
      normalFontSize := minFontSize
      marginSize := minMargin }
  else if contentVolume > 1500 then
    { nameFontSize := maxFontSize + 1
      headingFontSize := minFontSize + 1
      normalFontSize := minFontSize
      marginSize := 6/10 }
  else if contentVolume > 1200 then
    { nameFontSize := maxFontSize + 2
      headingFontSize := maxFontSize - 1
      normalFontSize := minFontSize
      marginSize := 7/10 }
  else if contentVolume > 900 then
    { nameFontSize := maxFontSize + 2
      headingFontSize := maxFontSize
      normalFontSize := minFontSize
      marginSize := 9/10 }
  else
    { nameFontSize := maxFontSize + 2
      headingFontSize := maxFontSize
      normalFontSize := minFontSize
      marginSize := 12/10 }

/-- One shrink iteration of the while loop in
`_check_and_adjust_for_page_fit` (source lines 562 to 567): name and
heading scaled by 0.95 with their floors, normal pinned at the minimum,
margin scaled by 0.9 with its floor. -/
def shrinkStep (p : SizeProfile) : SizeProfile :=
  { nameFontSize := max maxFontSize (p.nameFontSize * (95/100))
    headingFontSize := max (minFontSize + 1) (p.headingFontSize * (95/100))
    normalFontSize := minFontSize
    marginSize := max minMargin (p.marginSize * (9/10)) }

/-- Style role of one rendered paragraph.  The renderer uses exactly three
styles (Name Style, ATS Heading, ATS Normal) and `_estimate_page_count`
dispatches on whether the style name contains Heading, then Name,
falling through to the normal case. -/
inductive BlockRole where
  | heading
  | name
  | body
deriving Repr, DecidableEq

/-- One rendered paragraph as seen by `_estimate_page_count`: its style
role and its text (only the text length is read). -/
structure RenderedBlock where
  role : BlockRole
  text : String
deriving Repr, DecidableEq

/-- Python int() applied to a rational: truncation toward zero. -/
def pyInt (q : ℚ) : ℤ :=
  if 0 ≤ q then ⌊q⌋ else ⌈q⌉

/-- Base paragraph height from `_estimate_page_count`: heading and name
lines get fontsize times 1.5, normal lines fontsize times 1.2. -/
def baseParaHeight (p : SizeProfile) : BlockRole → ℚ
  | .heading => p.headingFontSize * (3/2)
  | .name => p.nameFontSize * (3/2)
  | .body => p.normalFontSize * (6/5)

/-- Characters per line from `_estimate_page_count`:
`int((page_width_inches - left_margin - right_margin) * 12)` where both
side margins equal the profile margin (set by `_setup_document`). -/
def charsPerLine (p : SizeProfile) : ℤ :=
  pyInt ((85/10 - p.marginSize - p.marginSize) * 12)

/-- Estimated height of one paragraph in `_estimate_page_count`: the base
height, multiplied by `max(1, text_length // chars_per_line)` when
`chars_per_line > 0` (Python floor division, hence `Int.fdiv`). -/
def blockHeight (p : SizeProfile) (b : RenderedBlock) : ℚ :=
  let base := baseParaHeight p b.role
  let cpl := charsPerLine p
  if 0 < cpl then base * ((max 1 (Int.fdiv (b.text.length : ℤ) cpl) : ℤ) : ℚ)
  else base

/-- Usable vertical space in points from `_estimate_page_count`:
11 inches times 72, minus top and bottom margins in points (both equal
the profile margin times 72). -/
def usableHeightPt (p : SizeProfile) : ℚ :=
  11 * 72 - p.marginSize * 72 - p.marginSize * 72

/-- Translation of `_estimate_page_count`: sum the estimated paragraph
heights, divide by the usable height, floor the result at 1. -/
def estimatePageCount (blocks : List RenderedBlock) (p : SizeProfile) : ℚ :=
  max 1 (((blocks.map (blockHeight p)).sum) / usableHeightPt p)

/-- State after `_check_and_adjust_for_page_fit` returns: the final
profile, the last page estimate, the number of shrink attempts taken,
whether the multi-page warning was printed, and whether the final
`self.doc.save(output_filename)` ran (it is unconditional in the source). -/
structure FitResult where
  profile : SizeProfile
  pageCount : ℚ
  attempts : ℕ
  overflowWarning : Bool
  savedOutput : Bool
deriving Repr, DecidableEq

/-- The while loop of `_check_and_adjust_for_page_fit`: while the page
estimate exceeds 1 and attempts remain, shrink the profile, re-render the
paragraphs from the unchanged structured data (producing the same block
list) and re-estimate.  Returns the final profile, page estimate and
attempt count. -/
def fitLoop (blocks : List RenderedBlock) (p : SizeProfile) (pageCount : ℚ)
    (attempts maxAttempts : ℕ) : SizeProfile × ℚ × ℕ :=
  if 1 < pageCount ∧ attempts < maxAttempts then
    let p1 := shrinkStep p
    fitLoop blocks p1 (estimatePageCount blocks p1) (attempts + 1) maxAttempts
  else
    (p, pageCount, attempts)
termination_by maxAttempts - attempts
decreasing_by omega

/-- Translation of `_check_and_adjust_for_page_fit`: estimate the page
count of the current render, run the shrink loop with `max_attempts = 3`,
print the overflow warning when the estimate still exceeds one page, and
save the document unconditionally. -/
def checkAndAdjustForPageFit (blocks : List RenderedBlock) (p : SizeProfile) : FitResult :=
  let pc0 := estimatePageCount blocks p
  let r := fitLoop blocks p pc0 0 3
  { profile := r.1
    pageCount := r.2.1
    attempts := r.2.2
    overflowWarning := decide (1 < r.2.1)
    savedOutput := true }

/-- The sizing part of `generate_resume`: select the initial profile from
the content volume, render, then run the page-fit loop on the rendered
paragraphs. -/
def generateResumeSizing (blocks : List RenderedBlock) (d : ResumeDocument) : FitResult :=
  checkAndAdjustForPageFit blocks (adjustFontAndMargins (estimateContentVolume d))

/-- Folding an accumulate-then-add function over a list equals the start
value plus the sum of the per-element contributions. -/
lemma foldl_eq_add_sum_map {α : Type} (f : ℚ → α → ℚ) (g : α → ℚ)
    (hf : ∀ a x, f a x = a + g x) (l : List α) :
    ∀ a : ℚ, l.foldl f a = a + (l.map g).sum := by
  induction l with
  | nil => intro a; simp
  | cons x xs ih =>
      intro a
      rw [List.foldl_cons, hf, List.map_cons, List.sum_cons, ih]
      ring

/-- Per-entry volume contribution in the wording of the specification:
base 100 plus 0.7 per character across the responsibility and achievement
strings combined. -/
def entryVolumeSpec (e : ExperienceEntry) : ℚ :=
  100 + ((e.responsibilities ++ e.achievements).map (fun s => (s.length : ℚ) * (7/10))).sum

/-- The character charge of 0.7 per responsibility or achievement string,
folded over a list, as a closed sum. -/
lemma foldl_charge_eq (l : List String) (a : ℚ) :
    l.foldl (fun a r => a + (r.length : ℚ) * (7/10)) a
      = a + (l.map (fun s => (s.length : ℚ) * (7/10))).sum :=
  foldl_eq_add_sum_map _ _ (fun _ _ => rfl) l a

/-- One work-loop iteration adds exactly the per-entry contribution. -/
lemma workEntryAccum_eq (a : ℚ) (e : ExperienceEntry) :
    workEntryAccum a e = a + entryVolumeSpec e := by
  unfold workEntryAccum entryVolumeSpec
  rw [foldl_charge_eq, foldl_charge_eq, List.map_append, List.sum_append]
  ring

/-- Summary contribution in the wording of the specification: 0.5 per
character of a present, non-empty summary. -/
def summaryVolume (d : ResumeDocument) : ℚ :=
  match d.professionalSummary with
  | none => 0
  | some s => if s.isEmpty then 0 else (s.length : ℚ) * (1/2)

/-- Skills contribution in the wording of the specification: for each
category, the label length plus 0.3 per character across its skills. -/
def skillsVolume (d : ResumeDocument) : ℚ :=
  (d.technicalSkills.map
    (fun cs => (cs.1.length : ℚ) + ((cs.2.map (fun s => (s.length : ℚ))).sum) * (3/10))).sum

/-- Education contribution in the wording of the specification: base 80
per education entry. -/
def educationVolume (d : ResumeDocument) : ℚ :=
  (d.education.map (fun _ => (80 : ℚ))).sum

/-- Closed form of the code's volume estimate: summary, work entries,
skills and education only. -/
def specResumeVolume (d : ResumeDocument) : ℚ :=
  summaryVolume d + (d.workExperience.map entryVolumeSpec).sum
    + skillsVolume d + educationVolume d

/-- Volume as claim C1 words it: work entries and also internship entries
each contribute base 100 plus 0.7 per character. -/
def claimVolumeWithInternships (d : ResumeDocument) : ℚ :=
  summaryVolume d + (d.workExperience.map entryVolumeSpec).sum
    + (d.internships.map entryVolumeSpec).sum
    + skillsVolume d + educationVolume d

/-- The code's fold-based volume estimate equals the closed-form sum. -/
lemma estimateContentVolume_closed (d : ResumeDocument) :
    estimateContentVolume d = specResumeVolume d := by
  have hwork := foldl_eq_add_sum_map workEntryAccum entryVolumeSpec workEntryAccum_eq
    d.workExperience
  have hskill := foldl_eq_add_sum_map _
    (fun cs : String × List String =>
      (cs.1.length : ℚ) + ((cs.2.map (fun s => (s.length : ℚ))).sum) * (3/10))
    (fun _ _ => rfl) d.technicalSkills
  have hedu := foldl_eq_add_sum_map _ (fun _ : EducationEntry => (80 : ℚ))
    (fun _ _ => rfl) d.education
  unfold estimateContentVolume specResumeVolume summaryVolume skillsVolume educationVolume
  simp only [hwork, hskill, hedu]
  cases d.professionalSummary with
  | none => ring
  | some s =>
      by_cases hs : s.isEmpty <;> simp [hs]

/-- A document whose only content is a single internship entry. -/
def internshipOnlyDoc : ResumeDocument :=
  { name := "A"
    contactInfo := []
    professionalSummary := none
    workExperience := []
    internships := [{ title := "T", company := "C", location := "L",
                      startDate := "S", endDate := "E",
                      responsibilities := [], achievements := [] }]
    projects := []
    certifications := []
    technicalSkills := []
    education := [] }

/-- Claim C1, counterexample: for the document whose only content is one
internship entry, the code's volume estimate is 0 while the claimed
formula (which charges internship entries a base of 100 plus 0.7 per
character) gives 100, so the claim as stated is false:
`_estimate_content_volume` never reads `self.internships`. -/
theorem contentVolume_claim_fails_on_internships :
    estimateContentVolume internshipOnlyDoc
      ≠ claimVolumeWithInternships internshipOnlyDoc := by
  simp [estimateContentVolume, claimVolumeWithInternships, internshipOnlyDoc,
    summaryVolume, skillsVolume, educationVolume, entryVolumeSpec]

/-- Claim C1, amended: for every resume document, the content-volume
estimate includes, for each work-experience entry, a fixed base
contribution of 100 plus 0.7 per character summed over all of that
entry's responsibility and achievement strings combined; internship
entries contribute nothing, so the estimate is unchanged by replacing
the internship list. -/
theorem contentVolume_work_entry_contribution :
    (∀ d : ResumeDocument, estimateContentVolume d
        = summaryVolume d + (d.workExperience.map entryVolumeSpec).sum
            + skillsVolume d + educationVolume d) ∧
    (∀ (d : ResumeDocument) (ents : List ExperienceEntry),
        estimateContentVolume { d with internships := ents }
          = estimateContentVolume d) := by
  constructor
  · intro d
    exact estimateContentVolume_closed d
  · intro d ents
    rfl

/-- Claim C8: projects and certifications contribute nothing to the
content-volume score; replacing both lists leaves the estimate
unchanged. -/
theorem volume_ignores_projects_certifications :
    ∀ (d : ResumeDocument) (ps : List ProjectEntry) (cs : List CertificationEntry),
      estimateContentVolume { d with projects := ps, certifications := cs }
        = estimateContentVolume d := by
  intro d ps cs
  rfl

/-- Claim C2: each of the five volume bands maps to exactly the fixed
profile listed in `_adjust_font_and_margins` (name 14/15/16, heading
13/13/13/14/14, body always 12, margins 0.5/0.6/0.7/0.9/1.2 inches), and
consequently tier selection is monotone: a larger volume never yields a
larger name size, heading size or margin. -/
theorem adjustFontAndMargins_bands_monotone :
    (∀ v : ℚ,
      (1800 < v → adjustFontAndMargins v
          = { nameFontSize := 14, headingFontSize := 13,
              normalFontSize := 12, marginSize := 1/2 }) ∧
      (1500 < v ∧ v ≤ 1800 → adjustFontAndMargins v
          = { nameFontSize := 15, headingFontSize := 13,
              normalFontSize := 12, marginSize := 6/10 }) ∧
      (1200 < v ∧ v ≤ 1500 → adjustFontAndMargins v
          = { nameFontSize := 16, headingFontSize := 13,
              normalFontSize := 12, marginSize := 7/10 }) ∧
      (900 < v ∧ v ≤ 1200 → adjustFontAndMargins v
          = { nameFontSize := 16, headingFontSize := 14,
              normalFontSize := 12, marginSize := 9/10 }) ∧
      (v ≤ 900 → adjustFontAndMargins v
          = { nameFontSize := 16, headingFontSize := 14,
              normalFontSize := 12, marginSize := 12/10 })) ∧
    (∀ v1 v2 : ℚ, v1 ≤ v2 →
      (adjustFontAndMargins v2).nameFontSize ≤ (adjustFontAndMargins v1).nameFontSize ∧
      (adjustFontAndMargins v2).headingFontSize ≤ (adjustFontAndMargins v1).headingFontSize ∧
      (adjustFontAndMargins v2).marginSize ≤ (adjustFontAndMargins v1).marginSize) := by
  constructor
  · intro v
    unfold adjustFontAndMargins minFontSize maxFontSize minMargin
    refine ⟨?_, ?_, ?_, ?_, ?_⟩
    · intro h
      split_ifs <;> simp only [SizeProfile.mk.injEq] <;> norm_num <;> linarith
    · rintro ⟨h1, h2⟩
      split_ifs <;> simp only [SizeProfile.mk.injEq] <;> norm_num <;> linarith
    · rintro ⟨h1, h2⟩
      split_ifs <;> simp only [SizeProfile.mk.injEq] <;> norm_num <;> linarith
    · rintro ⟨h1, h2⟩
      split_ifs <;> simp only [SizeProfile.mk.injEq] <;> norm_num <;> linarith
    · intro h
      split_ifs <;> simp only [SizeProfile.mk.injEq] <;> norm_num <;> linarith
  · intro v1 v2 h
    unfold adjustFontAndMargins minFontSize maxFontSize minMargin
    split_ifs <;> norm_num <;> linarith

/-- Concrete instances of claim C2: volume 2000 selects the smallest
tier, and the margin selected for volume 1000 is no larger than the one
selected for volume 500. -/
theorem adjustFontAndMargins_bands_monotone_witness :
    adjustFontAndMargins 2000
        = { nameFontSize := 14, headingFontSize := 13,
            normalFontSize := 12, marginSize := 1/2 } ∧
    (adjustFontAndMargins 1000).marginSize ≤ (adjustFontAndMargins 500).marginSize :=
  ⟨(adjustFontAndMargins_bands_monotone.1 2000).1 (by norm_num),
   (adjustFontAndMargins_bands_monotone.2 500 1000 (by norm_num)).2.2⟩

/-- Claim C4: every shrink iteration updates the profile exactly as the
claim states: name becomes max(14, name times 0.95), heading becomes
max(13, heading times 0.95), body is set to 12, margin becomes
max(0.5, margin times 0.9). -/
theorem shrinkStep_update_rule :
    ∀ p : SizeProfile,
      (shrinkStep p).nameFontSize = max 14 (p.nameFontSize * (95/100)) ∧
      (shrinkStep p).headingFontSize = max 13 (p.headingFontSize * (95/100)) ∧
      (shrinkStep p).normalFontSize = 12 ∧
      (shrinkStep p).marginSize = max (1/2) (p.marginSize * (9/10)) := by
  intro p
  unfold shrinkStep maxFontSize minFontSize minMargin
  refine ⟨rfl, ?_, rfl, rfl⟩
  norm_num

/-- Paragraph height as claim C3 words it: the role's base height times
max(1, floor(text length divided by chars-per-line)), with chars-per-line
equal to floor((8.5 minus left and right margins in inches) times 12). -/
def claimBlockHeight (p : SizeProfile) (b : RenderedBlock) : ℚ :=
  let cpl : ℤ := ⌊(85/10 - p.marginSize - p.marginSize) * 12⌋
  baseParaHeight p b.role * ((max 1 ⌊(b.text.length : ℚ) / (cpl : ℚ)⌋ : ℤ) : ℚ)

/-- Page estimate as claim C3 words it: max(1, total height divided by
usable height), with usable height 11 times 72 points minus the top and
bottom margins in points. -/
def claimPageEstimate (blocks : List RenderedBlock) (p : SizeProfile) : ℚ :=
  max 1 ((blocks.map (claimBlockHeight p)).sum
    / (11 * 72 - p.marginSize * 72 - p.marginSize * 72))

/-- Under the data-model margin bound the chars-per-line computation is
applied to a nonnegative quantity of at least 54. -/
lemma charsPerLine_pos (p : SizeProfile) (h0 : 0 ≤ p.marginSize)
    (h2 : p.marginSize ≤ maxMargin) :
    0 < charsPerLine p ∧
      charsPerLine p = ⌊(85/10 - p.marginSize - p.marginSize) * 12⌋ := by
  unfold maxMargin at h2
  have harg : (0:ℚ) ≤ (85/10 - p.marginSize - p.marginSize) * 12 := by nlinarith
  have heq : charsPerLine p = ⌊(85/10 - p.marginSize - p.marginSize) * 12⌋ := by
    unfold charsPerLine pyInt
    rw [if_pos harg]
  refine ⟨?_, heq⟩
  rw [heq]
  have h54 : (54:ℤ) ≤ ⌊(85/10 - p.marginSize - p.marginSize) * 12⌋ := by
    rw [Int.le_floor]
    push_cast
    nlinarith
  linarith

/-- For a positive divisor, Python floor division of a character count
agrees with the floor of the exact rational quotient. -/
lemma fdiv_eq_floor_ratCast (n : ℕ) (c : ℤ) (hc : 0 < c) :
    Int.fdiv (n : ℤ) c = ⌊(n : ℚ) / (c : ℚ)⌋ := by
  have hc0 : (0:ℤ) ≤ c := le_of_lt hc
  rw [Int.fdiv_eq_ediv _ hc0]
  have hcn : c = ((c.toNat : ℕ) : ℤ) := (Int.toNat_of_nonneg hc0).symm
  rw [hcn]
  rw [show ((((c.toNat : ℕ) : ℤ) : ℚ)) = ((c.toNat : ℕ) : ℚ) by push_cast; ring]
  rw [show ((n : ℚ)) = (((n : ℤ)) : ℚ) by push_cast; ring]
  exact (Rat.floor_intCast_div_natCast (n : ℤ) c.toNat).symm

/-- Claim C3: for every list of rendered paragraphs and every profile
with margin in the data-model range, the page estimate equals
max(1, total height / usable height) with the per-paragraph height
formula of the claim, and the estimate is always at least 1. -/
theorem estimatePageCount_formula_min_one (blocks : List RenderedBlock) (p : SizeProfile) :
    (0 ≤ p.marginSize → p.marginSize ≤ maxMargin →
      estimatePageCount blocks p = claimPageEstimate blocks p) ∧
    1 ≤ estimatePageCount blocks p := by
  constructor
  · intro h0 h2
    obtain ⟨hpos, heq⟩ := charsPerLine_pos p h0 h2
    unfold estimatePageCount claimPageEstimate usableHeightPt
    have hb : blockHeight p = claimBlockHeight p := by
      funext b
      unfold blockHeight claimBlockHeight
      rw [if_pos hpos]
      rw [fdiv_eq_floor_ratCast b.text.length (charsPerLine p) hpos, heq]
    rw [hb]
  · unfold estimatePageCount
    exact le_max_left 1 _

/-- Concrete instance of claim C3: at the initial profile (margin 0.75,
within bounds) the code's estimate of a one-paragraph render equals the
claim's formula, and it is at least 1. -/
theorem estimatePageCount_formula_min_one_witness :
    estimatePageCount [{ role := BlockRole.body, text := "hi" }] initialProfile
        = claimPageEstimate [{ role := BlockRole.body, text := "hi" }] initialProfile ∧
    1 ≤ estimatePageCount [{ role := BlockRole.body, text := "hi" }] initialProfile :=
  ⟨(estimatePageCount_formula_min_one _ initialProfile).1
      (by norm_num [initialProfile]) (by norm_num [initialProfile, maxMargin]),
   (estimatePageCount_formula_min_one _ initialProfile).2⟩

/-- The attempts counter of the fitting loop never exceeds the attempt
limit it starts below. -/
lemma fitLoop_attempts_le (n : ℕ) :
    ∀ (blocks : List RenderedBlock) (p : SizeProfile) (pc : ℚ) (a m : ℕ),
      m - a ≤ n → a ≤ m → (fitLoop blocks p pc a m).2.2 ≤ m := by
  induction n with
  | zero =>
      intro blocks p pc a m hn ham
      rw [fitLoop]
      split
      · next h => exact absurd h.2 (by omega)
      · exact ham
  | succ n ih =>
      intro blocks p pc a m hn ham
      rw [fitLoop]
      split
      · next h => exact ih _ _ _ _ _ (by omega) (by omega)
      · exact ham

/-- The fitting loop leaves the normal font size where it found it or
pins it to the 12 point floor, so a start at or above the floor stays
at or above the floor. -/
lemma fitLoop_normal_ge (n : ℕ) :
    ∀ (blocks : List RenderedBlock) (p : SizeProfile) (pc : ℚ) (a m : ℕ),
      m - a ≤ n → 12 ≤ p.normalFontSize →
      12 ≤ (fitLoop blocks p pc a m).1.normalFontSize := by
  induction n with
  | zero =>
      intro blocks p pc a m hn hp
      rw [fitLoop]
      split
      · next h => exact absurd h.2 (by omega)
      · exact hp
  | succ n ih =>
      intro blocks p pc a m hn hp
      rw [fitLoop]
      split
      · next h =>
          apply ih _ _ _ _ _ (by omega)
          show 12 ≤ (shrinkStep p).normalFontSize
          norm_num [shrinkStep, minFontSize]
      · exact hp

/-- Claim C5: for every rendered document and starting profile, the
page-fit loop takes at most 3 shrink attempts, hence at most 4 sizing
attempts in total (the initial render plus the shrink re-renders). -/
theorem fit_attempts_bounded :
    ∀ (blocks : List RenderedBlock) (p : SizeProfile),
      (checkAndAdjustForPageFit blocks p).attempts ≤ 3 ∧
      1 + (checkAndAdjustForPageFit blocks p).attempts ≤ 4 := by
  intro blocks p
  have h := fitLoop_attempts_le 3 blocks p (estimatePageCount blocks p) 0 3
    (by omega) (by omega)
  have h2 : (checkAndAdjustForPageFit blocks p).attempts ≤ 3 := h
  exact ⟨h2, by omega⟩

/-- Claim C6: the body (normal) font size is at least 12 points at every
stage of a generation pass: at initialization, after tier selection for
any volume, after any single shrink step, and after the whole page-fit
loop run from any tier-selected profile. -/
theorem normalFontSize_never_below_floor :
    12 ≤ initialProfile.normalFontSize ∧
    (∀ v : ℚ, 12 ≤ (adjustFontAndMargins v).normalFontSize) ∧
    (∀ p : SizeProfile, 12 ≤ (shrinkStep p).normalFontSize) ∧
    (∀ (blocks : List RenderedBlock) (v : ℚ),
      12 ≤ (checkAndAdjustForPageFit blocks
              (adjustFontAndMargins v)).profile.normalFontSize) := by
  refine ⟨?_, ?_, ?_, ?_⟩
  · norm_num [initialProfile, minFontSize]
  · intro v
    unfold adjustFontAndMargins minFontSize maxFontSize minMargin
    split_ifs <;> norm_num
  · intro p
    norm_num [shrinkStep, minFontSize]
  · intro blocks v
    have hstart : 12 ≤ (adjustFontAndMargins v).normalFontSize := by
      unfold adjustFontAndMargins minFontSize maxFontSize minMargin
      split_ifs <;> norm_num
    exact fitLoop_normal_ge 3 blocks _ _ 0 3 (by omega) hstart

/-- Claim C7: the overflow condition is never fatal: for every rendered
document and starting profile the engine saves the final document
unconditionally, and the warning is emitted exactly when the final page
estimate still exceeds one page. -/
theorem overflow_nonfatal_always_saves :
    ∀ (blocks : List RenderedBlock) (p : SizeProfile),
      (checkAndAdjustForPageFit blocks p).savedOutput = true ∧
      ((checkAndAdjustForPageFit blocks p).overflowWarning = true
        ↔ 1 < (checkAndAdjustForPageFit blocks p).pageCount) := by
  intro blocks p
  constructor
  · rfl
  · simp [checkAndAdjustForPageFit]

/-- Font-size ordering invariant of claim C10: the name size is at least
the heading size, and the heading size is at least the body size plus 1. -/
def fontOrderInvariant (p : SizeProfile) : Prop :=
  p.headingFontSize ≤ p.nameFontSize ∧ p.normalFontSize + 1 ≤ p.headingFontSize

/-- Claim C10: the ordering name at least heading at least body plus one
holds at initialization (16/14/12), after tier selection for every
volume, and is preserved by every shrink step. -/
theorem fontOrder_invariant_preserved :
    fontOrderInvariant initialProfile ∧
    (∀ v : ℚ, fontOrderInvariant (adjustFontAndMargins v)) ∧
    (∀ p : SizeProfile, fontOrderInvariant p → fontOrderInvariant (shrinkStep p)) := by
  refine ⟨?_, ?_, ?_⟩
  · constructor <;> norm_num [initialProfile, maxFontSize, minFontSize]
  · intro v
    unfold fontOrderInvariant adjustFontAndMargins minFontSize maxFontSize minMargin
    split_ifs <;> norm_num
  · rintro p ⟨h1, h2⟩
    unfold fontOrderInvariant shrinkStep minFontSize maxFontSize
    constructor
    · apply max_le
      · exact le_trans (by norm_num) (le_max_left (14:ℚ) (p.nameFontSize * (95/100)))
      · exact le_trans (mul_le_mul_of_nonneg_right h1 (by norm_num))
          (le_max_right (14:ℚ) (p.nameFontSize * (95/100)))
    · exact le_max_left _ _

/-- Concrete instance of claim C10: the shrink step preserves the font
ordering of the initialization profile. -/
theorem fontOrder_invariant_preserved_witness :
    fontOrderInvariant (shrinkStep initialProfile) :=
  fontOrder_invariant_preserved.2.2 initialProfile
    (by constructor <;> norm_num [fontOrderInvariant, initialProfile, maxFontSize, minFontSize])

/-- Every estimated paragraph height is nonnegative for a profile with
nonnegative font sizes. -/
lemma blockHeight_nonneg (p : SizeProfile) (b : RenderedBlock)
    (hname : 0 ≤ p.nameFontSize) (hheading : 0 ≤ p.headingFontSize)
    (hnormal : 0 ≤ p.normalFontSize) : 0 ≤ blockHeight p b := by
  have hbase : 0 ≤ baseParaHeight p b.role := by
    cases hb : b.role <;> simp only [baseParaHeight] <;> positivity
  simp only [blockHeight]
  split
  · next hc =>
      apply mul_nonneg hbase
      have : (1:ℤ) ≤ max 1 (Int.fdiv (b.text.length : ℤ) (charsPerLine p)) :=
        le_max_left _ _
      exact_mod_cast le_trans (by norm_num) this
  · exact hbase

/-- The total estimated height of a block list is nonnegative for a
profile with nonnegative font sizes. -/
lemma totalHeight_nonneg (p : SizeProfile) (blocks : List RenderedBlock)
    (hname : 0 ≤ p.nameFontSize) (hheading : 0 ≤ p.headingFontSize)
    (hnormal : 0 ≤ p.normalFontSize) :
    0 ≤ (blocks.map (blockHeight p)).sum := by
  apply List.sum_nonneg
  intro x hx
  obtain ⟨b, _, rfl⟩ := List.mem_map.mp hx
  exact blockHeight_nonneg p b hname hheading hnormal

/-- A longer text never yields a smaller estimated paragraph height,
for blocks of the same role under a profile with nonnegative sizes. -/
lemma blockHeight_mono (p : SizeProfile) (b1 b2 : RenderedBlock)
    (hrole : b1.role = b2.role) (hlen : b1.text.length ≤ b2.text.length)
    (hname : 0 ≤ p.nameFontSize) (hheading : 0 ≤ p.headingFontSize)
    (hnormal : 0 ≤ p.normalFontSize) :
    blockHeight p b1 ≤ blockHeight p b2 := by
  have hbase : 0 ≤ baseParaHeight p b1.role := by
    cases hb : b1.role <;> simp only [baseParaHeight] <;> positivity
  simp only [blockHeight]
  rw [hrole] at hbase ⊢
  split
  · next hc =>
      apply mul_le_mul_of_nonneg_left _ hbase
      have hdiv : Int.fdiv (b1.text.length : ℤ) (charsPerLine p)
          ≤ Int.fdiv (b2.text.length : ℤ) (charsPerLine p) := by
        rw [Int.fdiv_eq_ediv _ (le_of_lt hc), Int.fdiv_eq_ediv _ (le_of_lt hc)]
        exact Int.ediv_le_ediv hc (by exact_mod_cast hlen)
      exact_mod_cast max_le_max (le_refl (1:ℤ)) hdiv
  · exact le_refl _

/-- Claim C9: the page estimator is monotone in text length: replacing
one paragraph's text by a strictly longer text (same role, same profile
with nonnegative sizes) never lowers the page estimate. -/
theorem estimatePageCount_monotone_in_text_length
    (pre post : List RenderedBlock) (b1 b2 : RenderedBlock) (p : SizeProfile)
    (hrole : b1.role = b2.role)
    (hlen : b1.text.length < b2.text.length)
    (hname : 0 ≤ p.nameFontSize) (hheading : 0 ≤ p.headingFontSize)
    (hnormal : 0 ≤ p.normalFontSize) :
    estimatePageCount (pre ++ b1 :: post) p ≤ estimatePageCount (pre ++ b2 :: post) p := by
  have hb : blockHeight p b1 ≤ blockHeight p b2 :=
    blockHeight_mono p b1 b2 hrole (le_of_lt hlen) hname hheading hnormal
  have hT : ((pre ++ b1 :: post).map (blockHeight p)).sum
      ≤ ((pre ++ b2 :: post).map (blockHeight p)).sum := by
    simp only [List.map_append, List.sum_append, List.map_cons, List.sum_cons]
    linarith
  have hT1 : 0 ≤ ((pre ++ b1 :: post).map (blockHeight p)).sum :=
    totalHeight_nonneg p _ hname hheading hnormal
  have hT2 : 0 ≤ ((pre ++ b2 :: post).map (blockHeight p)).sum :=
    totalHeight_nonneg p _ hname hheading hnormal
  unfold estimatePageCount
  rcases lt_trichotomy 0 (usableHeightPt p) with hupos | huz | huneg
  · exact max_le_max le_rfl ((div_le_div_iff_of_pos_right hupos).mpr hT)
  · rw [← huz]
    simp
  · have h1 : ((pre ++ b1 :: post).map (blockHeight p)).sum / usableHeightPt p ≤ 0 :=
      div_nonpos_iff.mpr (Or.inl ⟨hT1, le_of_lt huneg⟩)
    have h2 : ((pre ++ b2 :: post).map (blockHeight p)).sum / usableHeightPt p ≤ 0 :=
      div_nonpos_iff.mpr (Or.inl ⟨hT2, le_of_lt huneg⟩)
    rw [max_eq_left (le_trans h1 (by norm_num)),
        max_eq_left (le_trans h2 (by norm_num))]

/-- Concrete instance of claim C9: lengthening a body paragraph from one
character to two characters does not lower the page estimate at the
initial profile. -/
theorem estimatePageCount_monotone_witness :
    estimatePageCount ([] ++ { role := BlockRole.body, text := "a" } :: []) initialProfile
      ≤ estimatePageCount ([] ++ { role := BlockRole.body, text := "ab" } :: [])
          initialProfile :=
  estimatePageCount_monotone_in_text_length [] []
    { role := BlockRole.body, text := "a" } { role := BlockRole.body, text := "ab" }
    initialProfile rfl (by decide)
    (by norm_num [initialProfile, maxFontSize])
    (by norm_num [initialProfile, maxFontSize])
    (by norm_num [initialProfile, minFontSize])
